import Mathlib

/-! # Thorlabs Scientific Logger interface (`tsi_log.h`)

The header declares three function-pointer typedefs and documents them.
Nothing else is declared: there is no function body in the header.  The
embedding below records

* the C types that occur in the typedefs,
* each typedef (name, return type, ordered parameter types) together with the
  parameter names and the `\returns` line of its documentation comment,
* the list of priority strings of the documentation of `TSI_LOG`,
* which argument lists a typedef accepts (C typing of the arguments).

The logging backend that implements the three operations is not part of the
header.  Where a property is about what the backend does, the backend is
modelled from the specification; those definitions say so.
-/

namespace TsiLog

/-- The C types that occur in `tsi_log.h`. -/
inductive CType where
  | void
  | int
  | constCharPtr
  | voidPtr
  deriving DecidableEq

/-- A typedef of a pointer to function, `typedef ret (*name) (params);`, with
the `\param[in]` names and the `\returns` text of its documentation comment.
The typedefs themselves leave the parameters unnamed. -/
structure FnPtrTypedef where
  name : String
  ret : CType
  params : List CType
  paramDocs : List String
  returnsDoc : Option String
  deriving DecidableEq

/-- The header line `typedef void* (*TSI_GET_LOG) (const char*, const char*);`. -/
def TSI_GET_LOG : FnPtrTypedef where
  name := "TSI_GET_LOG"
  ret := CType.voidPtr
  params := [CType.constCharPtr, CType.constCharPtr]
  paramDocs := ["moduleID", "groupID"]
  returnsDoc := some "A handle to a logger."

/-- The header line
`typedef int (*TSI_LOG) (void*, const char*, const char*, int, const char*, const char*);`. -/
def TSI_LOG : FnPtrTypedef where
  name := "TSI_LOG"
  ret := CType.int
  params := [CType.voidPtr, CType.constCharPtr, CType.constCharPtr, CType.int,
    CType.constCharPtr, CType.constCharPtr]
  paramDocs := ["logger", "priority", "file_name", "file_line", "function_name", "msg"]
  returnsDoc := some "0 to indicate success and 1 to indicate failure."

/-- The header line `typedef void (*TSI_FREE_LOG) (const char*, const char*);`. -/
def TSI_FREE_LOG : FnPtrTypedef where
  name := "TSI_FREE_LOG"
  ret := CType.void
  params := [CType.constCharPtr, CType.constCharPtr]
  paramDocs := ["moduleID", "groupID"]
  returnsDoc := none

/-- Every declaration of `tsi_log.h`, in the order of the file. -/
def tsi_log_h : List FnPtrTypedef := [TSI_GET_LOG, TSI_LOG, TSI_FREE_LOG]

/-- The values listed under "Valid values are:" in the documentation of the
`priority` parameter of `TSI_LOG`, in the order of the header. -/
def validPriorities : List String :=
  ["Fatal", "Critical", "Error", "Warning", "Notice", "Information", "Debug", "Trace"]

/-- A priority string is recognized when the header lists it. -/
def isValidPriority (p : String) : Bool := validPriorities.contains p

/-- Argument values of a call through one of the typedefs: a character string
(for `const char*`), an untyped pointer given by its address (for `void*`), or
an integer (for `int`). -/
inductive CValue where
  | str (s : String)
  | ptr (addr : Nat)
  | int (i : Int)
  deriving DecidableEq

/-- C typing of an argument value.  `w` is the width in bits of the C type
`int` on the platform (the header does not fix it): an integer has type `int`
when it lies in the two's complement range of that width. -/
def hasType (w : Nat) : CValue → CType → Bool
  | CValue.str _, CType.constCharPtr => true
  | CValue.ptr _, CType.voidPtr => true
  | CValue.int i, CType.int => decide (-((2 : Int) ^ (w - 1)) ≤ i ∧ i < (2 : Int) ^ (w - 1))
  | _, _ => false

/-- An argument list fits a parameter list: same length, each argument of the
type of its parameter. -/
def acceptsArgs (w : Nat) : List CValue → List CType → Bool
  | [], [] => true
  | v :: vs, t :: ts => hasType w v t && acceptsArgs w vs ts
  | _, _ => false

/-- The calls a typedef accepts: the argument lists that fit its parameters. -/
def accepts (w : Nat) (d : FnPtrTypedef) (args : List CValue) : Bool :=
  acceptsArgs w args d.params

/-- A result type through which an operation can report a status: the header
uses `int` for it (`\returns 0 to indicate success and 1 to indicate failure`);
`void` carries nothing and `void*` carries the logger handle. -/
def resultIsStatus : CType → Bool
  | CType.int => true
  | _ => false

/-- A parameter type through which the callee could write a value back to the
caller: a pointer to non-const data.  `const char*` and `int` are inputs only. -/
def paramIsWritable : CType → Bool
  | CType.voidPtr => true
  | _ => false

/-! ## The interface table of the specification -/

/-- The kinds of value the specification's interface table uses. -/
inductive SpecType where
  | string
  | handle
  | integer
  | nothing
  deriving DecidableEq

/-- One row of the specification's interface table: the symbol it stands for,
the ordered and named inputs, and the output. -/
structure SpecOp where
  symbol : String
  inputs : List (String × SpecType)
  output : SpecType
  deriving DecidableEq

/-- The interface table as the specification words it: acquire, write, release. -/
def specInterface : List SpecOp :=
  [ { symbol := "TSI_GET_LOG"
      inputs := [("moduleID", SpecType.string), ("groupID", SpecType.string)]
      output := SpecType.handle },
    { symbol := "TSI_LOG"
      inputs := [("handle", SpecType.handle), ("priority", SpecType.string),
        ("fileName", SpecType.string), ("fileLine", SpecType.integer),
        ("functionName", SpecType.string), ("message", SpecType.string)]
      output := SpecType.integer },
    { symbol := "TSI_FREE_LOG"
      inputs := [("moduleID", SpecType.string), ("groupID", SpecType.string)]
      output := SpecType.nothing } ]

/-- The priority strings as the specification lists them, "in descending
severity". -/
def specPriorities : List String :=
  ["Fatal", "Critical", "Error", "Warning", "Notice", "Information", "Debug", "Trace"]

/-- How the specification reads a C type of the header. -/
def abstractType : CType → SpecType
  | CType.void => SpecType.nothing
  | CType.int => SpecType.integer
  | CType.constCharPtr => SpecType.string
  | CType.voidPtr => SpecType.handle

/-- The signature of a typedef as the specification reads it: symbol, ordered
input kinds, output kind. -/
def abstractSignature (d : FnPtrTypedef) : String × List SpecType × SpecType :=
  (d.name, d.params.map abstractType, abstractType d.ret)

/-- The signature a row of the specification's table states. -/
def SpecOp.signature (o : SpecOp) : String × List SpecType × SpecType :=
  (o.symbol, o.inputs.map Prod.snd, o.output)

/-- The argument a call passes for the parameter the documentation names
`name`: parameters are matched to the `\param[in]` entries by position. -/
def argNamed (d : FnPtrTypedef) (name : String) (args : List CValue) : Option CValue :=
  args[d.paramDocs.indexOf name]?

/-- A call of `TSI_LOG` that passes `-1` as the line number. -/
def callWithNegativeLine : List CValue :=
  [CValue.ptr 0, CValue.str "Error", CValue.str "main.c", CValue.int (-1),
    CValue.str "doWork", CValue.str "disk full"]

/-! ## The backend, modelled from the specification -/

/-- Modelled from the spec: the outcome of the write operation.  The backend
that computes it is not in the header; the specification says "Result:
succeeds (maps to value 0) or fails (maps to value 1)". -/
inductive WriteResult where
  | success
  | failure
  deriving DecidableEq

/-- Modelled from the spec: the integer a write outcome maps to, "0 = success,
1 = failure" (the header: `\returns 0 to indicate success and 1 to indicate
failure`). -/
def WriteResult.status : WriteResult → Int
  | WriteResult.success => 0
  | WriteResult.failure => 1

/-- Modelled from the spec: a logging backend, the implementation of the three
operations, which the header only declares.  `σ` is whatever state the backend
keeps; a handle is a reference the backend chooses.  Acquire returns a handle,
write returns an outcome, release returns nothing. -/
structure Backend (σ : Type) where
  acquire : σ → String → String → Nat × σ
  write : σ → Nat → String → String → Int → String → String → WriteResult × σ
  release : σ → String → String → σ

/-- Modelled from the spec: a call through `TSI_LOG` bound to a backend; the
`int` it returns is the status of the backend's write outcome. -/
def Backend.TSI_LOG {σ : Type} (b : Backend σ) (s : σ) (logger : Nat)
    (priority file_name : String) (file_line : Int) (function_name msg : String) : Int × σ :=
  let r := b.write s logger priority file_name file_line function_name msg
  (r.1.status, r.2)

/-- Modelled from the spec: the lifecycle states of a logger, "Unacquired →
Acquired (writable) → Released". -/
inductive LoggerState where
  | Unacquired
  | Acquired
  | Released
  deriving DecidableEq

/-- Modelled from the spec: a logger is identified by its (moduleID, groupID)
pair. -/
abbrev LoggerKey := String × String

/-- Modelled from the spec: the calls a client makes.  The lifecycle does not
depend on the record a write carries, so a write is given by its handle. -/
inductive Op where
  | acquire (moduleID groupID : String)
  | write (logger : Nat)
  | release (moduleID groupID : String)
  deriving DecidableEq

/-- Modelled from the spec: the lifecycle bookkeeping of the contract: the
state of every identifier pair and the handles handed out so far (handle `h` is
the `h`-th one, for the pair `issued[h]`). -/
structure Facade where
  stateOf : LoggerKey → LoggerState
  issued : List LoggerKey

/-- Modelled from the spec: before any call every pair is Unacquired and no
handle exists. -/
def Facade.start : Facade := ⟨fun _ => LoggerState.Unacquired, []⟩

/-- Modelled from the spec: the bookkeeping with the state of one pair replaced. -/
def Facade.setState (s : Facade) (k : LoggerKey) (st : LoggerState) : Facade :=
  { s with stateOf := fun k' => if k' = k then st else s.stateOf k' }

/-- Modelled from the spec: the pair a handle was handed out for. -/
def Facade.keyOf (s : Facade) (h : Nat) : Option LoggerKey := s.issued[h]?

/-- Modelled from the spec: "`acquire` creates Acquired state" and returns a
handle for the pair; acquiring an Acquired pair again hands out a further
handle to the same logger; Released is terminal, so the contract has no acquire
there (`none`). -/
def Facade.acquire (s : Facade) (k : LoggerKey) : Option (Nat × Facade) :=
  match s.stateOf k with
  | LoggerState.Released => none
  | _ => some (s.issued.length,
      { stateOf := (s.setState k LoggerState.Acquired).stateOf, issued := s.issued ++ [k] })

/-- Modelled from the spec: "`write` is valid only in Acquired state": the
handle was handed out and its pair is Acquired. -/
def Facade.writeValid (s : Facade) (h : Nat) : Bool :=
  match s.keyOf h with
  | some k => decide (s.stateOf k = LoggerState.Acquired)
  | none => false

/-- Modelled from the spec: "`release` moves to Released (terminal) state"; its
input is "the same identifying pair used at acquisition", so the contract has
no release of a pair that is not Acquired (`none`). -/
def Facade.release (s : Facade) (k : LoggerKey) : Option Facade :=
  match s.stateOf k with
  | LoggerState.Acquired => some (s.setState k LoggerState.Released)
  | _ => none

/-- Modelled from the spec: one call under the contract; `none` when the
contract does not cover the call in this state. -/
def Facade.step (s : Facade) : Op → Option Facade
  | Op.acquire m g => (s.acquire (m, g)).map Prod.snd
  | Op.write h => if s.writeValid h = true then some s else none
  | Op.release m g => s.release (m, g)

/-- Modelled from the spec: a sequence of calls under the contract. -/
def Facade.run (s : Facade) : List Op → Option Facade
  | [] => some s
  | op :: ops =>
    match s.step op with
    | some s' => s'.run ops
    | none => none

/-- A client session: acquire, write once, release. -/
def sessionTrace : List Op :=
  [Op.acquire "camera" "sdk", Op.write 0, Op.release "camera" "sdk"]

/-! ## Lemmas on the lifecycle model -/

theorem setState_same (s : Facade) (k : LoggerKey) (st : LoggerState) :
    (s.setState k st).stateOf k = st := by
  simp [Facade.setState]

theorem setState_other (s : Facade) (k k' : LoggerKey) (st : LoggerState) (h : k' ≠ k) :
    (s.setState k st).stateOf k' = s.stateOf k' := by
  simp [Facade.setState, h]

theorem acquire_eq_some (s : Facade) (k : LoggerKey) (h : s.stateOf k ≠ LoggerState.Released) :
    s.acquire k = some (s.issued.length,
      { stateOf := (s.setState k LoggerState.Acquired).stateOf, issued := s.issued ++ [k] }) := by
  unfold Facade.acquire
  cases hk : s.stateOf k <;> simp_all

theorem acquire_eq_none (s : Facade) (k : LoggerKey) (h : s.stateOf k = LoggerState.Released) :
    s.acquire k = none := by
  unfold Facade.acquire
  simp [h]

theorem release_eq_some (s : Facade) (k : LoggerKey) (h : s.stateOf k = LoggerState.Acquired) :
    s.release k = some (s.setState k LoggerState.Released) := by
  unfold Facade.release
  simp [h]

theorem release_eq_none (s : Facade) (k : LoggerKey) (h : s.stateOf k ≠ LoggerState.Acquired) :
    s.release k = none := by
  unfold Facade.release
  cases hk : s.stateOf k <;> simp_all

theorem writeValid_iff (s : Facade) (h : Nat) :
    s.writeValid h = true ↔ ∃ k, s.keyOf h = some k ∧ s.stateOf k = LoggerState.Acquired := by
  unfold Facade.writeValid
  cases hk : s.keyOf h <;> simp

/-- What a call the contract covers does to the pair states and the handles. -/
theorem step_cases (s s' : Facade) (op : Op) (h : s.step op = some s') :
    (∃ m g, op = Op.acquire m g ∧ s.stateOf (m, g) ≠ LoggerState.Released ∧
        s'.stateOf = (s.setState (m, g) LoggerState.Acquired).stateOf ∧
        s'.issued = s.issued ++ [(m, g)]) ∨
    (∃ l, op = Op.write l ∧ s.writeValid l = true ∧ s' = s) ∨
    (∃ m g, op = Op.release m g ∧ s.stateOf (m, g) = LoggerState.Acquired ∧
        s' = s.setState (m, g) LoggerState.Released) := by
  cases op with
  | acquire m g =>
    left
    refine ⟨m, g, rfl, ?_⟩
    by_cases hr : s.stateOf (m, g) = LoggerState.Released
    · simp [Facade.step, acquire_eq_none s _ hr] at h
    · simp [Facade.step, acquire_eq_some s _ hr] at h
      subst h
      exact ⟨hr, rfl, rfl⟩
  | write l =>
    right; left
    by_cases hv : s.writeValid l = true
    · simp [Facade.step, hv] at h
      exact ⟨l, rfl, hv, h.symm⟩
    · simp [Facade.step, hv] at h
  | release m g =>
    right; right
    by_cases ha : s.stateOf (m, g) = LoggerState.Acquired
    · simp [Facade.step, release_eq_some s _ ha] at h
      exact ⟨m, g, rfl, ha, h.symm⟩
    · simp [Facade.step, release_eq_none s _ ha] at h

/-- A call moves a pair along the lifecycle by at most one edge. -/
theorem step_lifecycle (s s' : Facade) (op : Op) (h : s.step op = some s') (k : LoggerKey) :
    s'.stateOf k = s.stateOf k ∨
    (s.stateOf k = LoggerState.Unacquired ∧ s'.stateOf k = LoggerState.Acquired) ∨
    (s.stateOf k = LoggerState.Acquired ∧ s'.stateOf k = LoggerState.Released) := by
  rcases step_cases s s' op h with ⟨m, g, -, hr, hs, -⟩ | ⟨l, -, -, rfl⟩ | ⟨m, g, -, ha, rfl⟩
  · by_cases hk : k = (m, g)
    · subst hk
      rw [hs, setState_same]
      cases hst : s.stateOf (m, g)
      · right; left; exact ⟨rfl, rfl⟩
      · left; rfl
      · exact absurd hst hr
    · left; rw [hs, setState_other _ _ _ _ hk]
  · left; rfl
  · by_cases hk : k = (m, g)
    · subst hk
      right; right
      exact ⟨ha, setState_same _ _ _⟩
    · left; exact setState_other _ _ _ _ hk

theorem step_released (s s' : Facade) (op : Op) (h : s.step op = some s') (k : LoggerKey)
    (hk : s.stateOf k = LoggerState.Released) : s'.stateOf k = LoggerState.Released := by
  rcases step_lifecycle s s' op h k with h1 | ⟨h1, -⟩ | ⟨h1, -⟩
  · rw [h1, hk]
  · rw [hk] at h1; cases h1
  · rw [hk] at h1; cases h1

theorem step_keyOf (s s' : Facade) (op : Op) (h : s.step op = some s') (l : Nat) (k : LoggerKey)
    (hk : s.keyOf l = some k) : s'.keyOf l = some k := by
  rcases step_cases s s' op h with ⟨m, g, -, -, -, hi⟩ | ⟨_, -, -, rfl⟩ | ⟨m, g, -, -, rfl⟩
  · unfold Facade.keyOf at hk ⊢
    rw [hi]
    have hl : l < s.issued.length := by
      by_contra hc
      rw [List.getElem?_eq_none (by omega)] at hk
      cases hk
    rw [List.getElem?_append_left hl]
    exact hk
  · exact hk
  · exact hk

theorem run_released (ops : List Op) : ∀ (s s' : Facade), s.run ops = some s' →
    ∀ k, s.stateOf k = LoggerState.Released → s'.stateOf k = LoggerState.Released := by
  induction ops with
  | nil =>
    intro s s' h k hk
    simp [Facade.run] at h
    subst h
    exact hk
  | cons op ops ih =>
    intro s s' h k hk
    unfold Facade.run at h
    cases hs : s.step op with
    | none => simp [hs] at h
    | some s1 =>
      simp [hs] at h
      exact ih s1 s' h k (step_released s s1 op hs k hk)

theorem run_keyOf (ops : List Op) : ∀ (s s' : Facade), s.run ops = some s' →
    ∀ l k, s.keyOf l = some k → s'.keyOf l = some k := by
  induction ops with
  | nil =>
    intro s s' h l k hk
    simp [Facade.run] at h
    subst h
    exact hk
  | cons op ops ih =>
    intro s s' h l k hk
    unfold Facade.run at h
    cases hs : s.step op with
    | none => simp [hs] at h
    | some s1 =>
      simp [hs] at h
      exact ih s1 s' h l k (step_keyOf s s1 op hs l k hk)

/-- After a release the contract covers, the pair is Released for good. -/
theorem run_release_released (s1 s : Facade) (m g : String) (ops : List Op)
    (hrun : s1.run (Op.release m g :: ops) = some s) :
    s.stateOf (m, g) = LoggerState.Released := by
  unfold Facade.run at hrun
  cases hs : s1.step (Op.release m g) with
  | none => simp [hs] at hrun
  | some s2 =>
    simp [hs] at hrun
    have hrel : s2.stateOf (m, g) = LoggerState.Released := by
      rcases step_cases s1 s2 _ hs with ⟨_, _, ho, -⟩ | ⟨_, ho, -⟩ | ⟨m', g', ho, -, rfl⟩
      · cases ho
      · cases ho
      · cases ho
        exact setState_same _ _ _
    exact run_released ops s2 s hrun _ hrel

theorem write_released_none (s : Facade) (h : Nat) (k : LoggerKey) (hk : s.keyOf h = some k)
    (hr : s.stateOf k = LoggerState.Released) :
    s.writeValid h = false ∧ s.step (Op.write h) = none := by
  have hv : s.writeValid h = false := by
    unfold Facade.writeValid
    simp [hk, hr]
  exact ⟨hv, by simp [Facade.step, hv]⟩

theorem acceptsArgs_two (w : Nat) (a b : CValue) (t u : CType) :
    acceptsArgs w [a, b] [t, u] = (hasType w a t && hasType w b u) := by
  simp [acceptsArgs]

/-! ## The claims -/

/-- Claim C1: for every backend and every call of the write operation through
`TSI_LOG`, with any handle, priority, file name, file line, function name and
message, the returned status is 0 or 1 and no other integer: 0 exactly when
the write succeeded and 1 exactly when it failed. -/
theorem TSI_LOG_status_binary {σ : Type} (b : Backend σ) (s : σ) (logger : Nat)
    (priority file_name : String) (file_line : Int) (function_name msg : String) :
    ((b.TSI_LOG s logger priority file_name file_line function_name msg).1 = 0 ∨
      (b.TSI_LOG s logger priority file_name file_line function_name msg).1 = 1) ∧
    ((b.TSI_LOG s logger priority file_name file_line function_name msg).1 = 0 ↔
      (b.write s logger priority file_name file_line function_name msg).1
        = WriteResult.success) ∧
    ((b.TSI_LOG s logger priority file_name file_line function_name msg).1 = 1 ↔
      (b.write s logger priority file_name file_line function_name msg).1
        = WriteResult.failure) := by
  have hst : (b.TSI_LOG s logger priority file_name file_line function_name msg).1
      = (b.write s logger priority file_name file_line function_name msg).1.status := rfl
  rw [hst]
  cases hw : (b.write s logger priority file_name file_line function_name msg).1 <;>
    simp [WriteResult.status]

/-- Claim C2: the priority values the header documents for `TSI_LOG` are the
eight strings Fatal, Critical, Error, Warning, Notice, Information, Debug,
Trace: eight entries, pairwise distinct, in the order of the specification's
descending-severity list, Fatal first and Trace last; a string is recognized
exactly when it is one of the eight. -/
theorem validPriorities_eight_distinct_ordered :
    validPriorities.length = 8 ∧
    validPriorities.Nodup ∧
    validPriorities = specPriorities ∧
    validPriorities.head? = some "Fatal" ∧
    validPriorities.getLast? = some "Trace" ∧
    (∀ p : String, isValidPriority p = true ↔
      (p = "Fatal" ∨ p = "Critical" ∨ p = "Error" ∨ p = "Warning" ∨ p = "Notice" ∨
        p = "Information" ∨ p = "Debug" ∨ p = "Trace")) := by
  refine ⟨by decide, by decide, by decide, by decide, by decide, ?_⟩
  intro p
  simp [isValidPriority, validPriorities]

/-- Claim C3: the header declares exactly three operations, and their ordered
signatures are those of the specification's table: `TSI_GET_LOG` takes two
strings and returns a handle, `TSI_LOG` takes a handle, two strings, an
integer and two strings and returns an integer, `TSI_FREE_LOG` takes the same
parameter types as `TSI_GET_LOG` and returns nothing. -/
theorem interface_three_signatures :
    tsi_log_h.length = 3 ∧
    tsi_log_h.map abstractSignature = specInterface.map SpecOp.signature ∧
    abstractSignature TSI_GET_LOG
      = ("TSI_GET_LOG", [SpecType.string, SpecType.string], SpecType.handle) ∧
    abstractSignature TSI_LOG
      = ("TSI_LOG", [SpecType.handle, SpecType.string, SpecType.string, SpecType.integer,
          SpecType.string, SpecType.string], SpecType.integer) ∧
    abstractSignature TSI_FREE_LOG
      = ("TSI_FREE_LOG", [SpecType.string, SpecType.string], SpecType.nothing) ∧
    TSI_FREE_LOG.params = TSI_GET_LOG.params ∧
    TSI_FREE_LOG.paramDocs = TSI_GET_LOG.paramDocs := by
  decide

/-- Claim C4: acquire and release have no error channel: `TSI_FREE_LOG`
returns `void` and documents no return value, `TSI_GET_LOG` returns the handle
(`void*`) and no status, neither has a parameter through which a status could
be written back; `TSI_LOG` is the only declaration of the header whose result
is a status. -/
theorem only_write_reports_status :
    TSI_FREE_LOG.ret = CType.void ∧
    TSI_FREE_LOG.returnsDoc = none ∧
    TSI_GET_LOG.ret = CType.voidPtr ∧
    resultIsStatus TSI_GET_LOG.ret = false ∧
    resultIsStatus TSI_FREE_LOG.ret = false ∧
    (∀ t ∈ TSI_GET_LOG.params ++ TSI_FREE_LOG.params, paramIsWritable t = false) ∧
    (∀ d ∈ tsi_log_h, resultIsStatus d.ret = true ↔ d = TSI_LOG) := by
  decide

/-- Claim C5, as stated, fails: with a 32-bit `int`, `TSI_LOG` accepts a call
whose line number is `-1`, so not every accepted call has a non-negative
line number. -/
theorem fileLine_negative_accepted :
    accepts 32 TSI_LOG callWithNegativeLine = true ∧
    argNamed TSI_LOG "file_line" callWithNegativeLine = some (CValue.int (-1)) ∧
    ¬ (∀ args : List CValue, accepts 32 TSI_LOG args = true →
        ∀ i : Int, argNamed TSI_LOG "file_line" args = some (CValue.int i) → 0 ≤ i) := by
  refine ⟨by decide, by decide, ?_⟩
  intro hall
  have h := hall callWithNegativeLine (by decide) (-1) (by decide)
  omega

/-- Claim C5, amended: the line number of `TSI_LOG` is a C `int`.  Every
accepted call passes an integer in the range of `int` as its line number, and
every integer of that range, the negative ones included, is the line number of
an accepted call. -/
theorem fileLine_is_any_int (w : Nat) :
    (∀ args : List CValue, accepts w TSI_LOG args = true →
      ∃ i : Int, argNamed TSI_LOG "file_line" args = some (CValue.int i) ∧
        -((2 : Int) ^ (w - 1)) ≤ i ∧ i < (2 : Int) ^ (w - 1)) ∧
    (∀ i : Int, -((2 : Int) ^ (w - 1)) ≤ i → i < (2 : Int) ^ (w - 1) →
      ∃ args : List CValue, accepts w TSI_LOG args = true ∧
        argNamed TSI_LOG "file_line" args = some (CValue.int i)) := by
  have hidx : TSI_LOG.paramDocs.indexOf "file_line" = 3 := by decide
  constructor
  · intro args h
    rcases args with _ | ⟨a0, _ | ⟨a1, _ | ⟨a2, _ | ⟨a3, _ | ⟨a4, _ | ⟨a5, _ | ⟨a6, r⟩⟩⟩⟩⟩⟩⟩ <;>
      simp [accepts, acceptsArgs, TSI_LOG] at h
    obtain ⟨-, -, -, h3, -, -⟩ := h
    cases a3 with
    | str x => simp [hasType] at h3
    | ptr x => simp [hasType] at h3
    | int i =>
      refine ⟨i, ?_, ?_⟩
      · simp [argNamed, hidx]
      · simpa [hasType] using h3
  · intro i hlo hhi
    refine ⟨[CValue.ptr 0, CValue.str "", CValue.str "", CValue.int i, CValue.str "",
      CValue.str ""], ?_, ?_⟩
    · simp [accepts, acceptsArgs, TSI_LOG, hasType, hlo, hhi]
    · simp [argNamed, hidx]

/-- Witness of `fileLine_is_any_int`: the call with line number `-1` is accepted
with a 32-bit `int`, and its line number lies in the range of `int`. -/
theorem fileLine_is_any_int_witness :
    accepts 32 TSI_LOG callWithNegativeLine = true ∧
    ∃ i : Int, argNamed TSI_LOG "file_line" callWithNegativeLine = some (CValue.int i) ∧
      -((2 : Int) ^ (32 - 1)) ≤ i ∧ i < (2 : Int) ^ (32 - 1) :=
  ⟨by decide, (fileLine_is_any_int 32).1 callWithNegativeLine (by decide)⟩

/-- Claim C6: a logger identified by a (moduleID, groupID) pair follows the
lifecycle Unacquired, Acquired, Released.  Every pair starts Unacquired;
acquire moves a pair that is not Released to Acquired and hands out a handle
for it; a write is valid exactly on a handle whose pair is Acquired; release
moves an Acquired pair to Released and invalidates every handle handed out for
it; Released is terminal (no acquire, no release, and every further call
leaves the pair Released); a call moves a pair by at most one lifecycle edge;
and in no state reached from the start is a write valid on a handle whose
pair was released, whatever calls came after the release. -/
theorem logger_lifecycle :
    (∀ k : LoggerKey, Facade.start.stateOf k = LoggerState.Unacquired) ∧
    (∀ (s : Facade) (k : LoggerKey), s.stateOf k ≠ LoggerState.Released →
      ∃ s' : Facade, s.acquire k = some (s.issued.length, s') ∧
        s'.stateOf k = LoggerState.Acquired ∧ s'.keyOf s.issued.length = some k) ∧
    (∀ (s : Facade) (h : Nat), s.writeValid h = true ↔
      ∃ k, s.keyOf h = some k ∧ s.stateOf k = LoggerState.Acquired) ∧
    (∀ (s : Facade) (k : LoggerKey), s.stateOf k = LoggerState.Acquired →
      ∃ s' : Facade, s.release k = some s' ∧ s'.stateOf k = LoggerState.Released ∧
        ∀ h : Nat, s.keyOf h = some k → s'.writeValid h = false) ∧
    (∀ (s : Facade) (k : LoggerKey), s.stateOf k = LoggerState.Released →
      s.acquire k = none ∧ s.release k = none ∧
        ∀ (op : Op) (s' : Facade), s.step op = some s' →
          s'.stateOf k = LoggerState.Released) ∧
    (∀ (s s' : Facade) (op : Op) (k : LoggerKey), s.step op = some s' →
      (s'.stateOf k = s.stateOf k ∨
        (s.stateOf k = LoggerState.Unacquired ∧ s'.stateOf k = LoggerState.Acquired) ∨
        (s.stateOf k = LoggerState.Acquired ∧ s'.stateOf k = LoggerState.Released))) ∧
    (∀ (before after : List Op) (m g : String) (s1 s : Facade),
      Facade.start.run before = some s1 →
      s1.run (Op.release m g :: after) = some s →
      ∀ h : Nat, (s1.keyOf h = some (m, g) ∨ s.keyOf h = some (m, g)) →
        s.writeValid h = false ∧ s.step (Op.write h) = none) := by
  refine ⟨fun _ => rfl, ?_, writeValid_iff, ?_, ?_, ?_, ?_⟩
  · intro s k hk
    refine ⟨_, acquire_eq_some s k hk, setState_same _ _ _, ?_⟩
    simp [Facade.keyOf]
  · intro s k hk
    refine ⟨_, release_eq_some s k hk, setState_same _ _ _, ?_⟩
    intro h hh
    exact (write_released_none (s.setState k LoggerState.Released) h k hh
      (setState_same _ _ _)).1
  · intro s k hk
    refine ⟨acquire_eq_none s k hk, release_eq_none s k (by rw [hk]; decide), ?_⟩
    intro op s' hs
    exact step_released s s' op hs k hk
  · intro s s' op k hs
    exact step_lifecycle s s' op hs k
  · intro before after m g s1 s _ hrun h hh
    have hrel := run_release_released s1 s m g after hrun
    have hkey : s.keyOf h = some (m, g) := by
      rcases hh with h1 | h2
      · exact run_keyOf _ s1 s hrun h _ h1
      · exact h2
    exact write_released_none s h _ hkey hrel

/-- Witness of `logger_lifecycle`: in the session acquire, write, release on the
pair ("camera", "sdk") the contract covers every call, and afterwards a write
on the handle of the session is not valid. -/
theorem logger_lifecycle_witness :
    ∃ s : Facade, Facade.start.run sessionTrace = some s ∧
      s.stateOf ("camera", "sdk") = LoggerState.Released ∧
      s.writeValid 0 = false ∧ s.step (Op.write 0) = none :=
  ⟨_, rfl, rfl,
    logger_lifecycle.2.2.2.2.2.2
      [Op.acquire "camera" "sdk", Op.write 0] [] "camera" "sdk" _ _ rfl rfl 0 (Or.inl rfl)⟩

/-- Claim C8: the header does not enforce that groupID differs from moduleID:
for every string `s`, `TSI_GET_LOG` and `TSI_FREE_LOG` accept the pair (s, s)
just as they accept a pair (s, t) of any two strings, and whether a pair of
arguments is accepted is decided for each argument on its own, with no
condition that relates the two. -/
theorem same_identifier_accepted (w : Nat) (s t : String) :
    accepts w TSI_GET_LOG [CValue.str s, CValue.str s] = true ∧
    accepts w TSI_GET_LOG [CValue.str s, CValue.str t] = true ∧
    accepts w TSI_FREE_LOG [CValue.str s, CValue.str s] = true ∧
    accepts w TSI_FREE_LOG [CValue.str s, CValue.str t] = true ∧
    (∀ a b : CValue, accepts w TSI_GET_LOG [a, b]
      = (hasType w a CType.constCharPtr && hasType w b CType.constCharPtr)) ∧
    (∀ a b : CValue, accepts w TSI_FREE_LOG [a, b]
      = (hasType w a CType.constCharPtr && hasType w b CType.constCharPtr)) := by
  refine ⟨?_, ?_, ?_, ?_, ?_, ?_⟩
  · simp [accepts, acceptsArgs, hasType, TSI_GET_LOG]
  · simp [accepts, acceptsArgs, hasType, TSI_GET_LOG]
  · simp [accepts, acceptsArgs, hasType, TSI_FREE_LOG]
  · simp [accepts, acceptsArgs, hasType, TSI_FREE_LOG]
  · intro a b
    exact acceptsArgs_two w a b _ _
  · intro a b
    exact acceptsArgs_two w a b _ _

end TsiLog
